import Mathlib

/-!
Shallow embedding of `src/game/pkg/gdextension/class_registry_c.c`.

The C file defines three trampoline functions that forward their parameters
to externally defined handlers (`go_create_instance`, `go_free_instance`,
`go_method_call`) and propagate the handler's return value:

  GDExtensionClassInstancePtr c_create_instance_wrapper(void* class_userdata) {
      return go_create_instance(class_userdata);
  }
  void c_free_instance_wrapper(void* class_userdata, GDExtensionClassInstancePtr instance) {
      go_free_instance(class_userdata, instance);
  }
  void c_method_call_wrapper(void* method_userdata, GDExtensionClassInstancePtr instance,
                            const GDExtensionVariantPtr* args, int64_t arg_count,
                            GDExtensionVariantPtr ret, int64_t* error) {
      go_method_call(method_userdata, instance, args, arg_count, ret, error);
  }

Modelling choices:
* Pointers are opaque addresses, modelled as `Ptr := Nat`, with `nullPtr = 0`
  for the C null pointer.
* Memory is an explicit heap `Heap := Nat → Int`, mapping addresses to the
  (integer) contents stored there.  A handler may read and write the heap;
  the trampolines themselves pass the heap through to the handler untouched,
  exactly as the C code never dereferences anything.
* The external handlers are not part of the repository fragment; they are
  modelled abstractly as a record `Handlers` of arbitrary functions on
  pointers and the heap.
* Each trampoline returns, besides its result and the post-call heap, the
  list of handler invocations it performed (a `List HandlerCall`), recording
  the handler called and every argument passed to it, in positional order.
  This instruments the single call each C trampoline makes, so that claims
  about "exactly one handler call with identical parameters" are statable.
* `arg_count` has C type `int64_t`; it is modelled as `Int`, with the
  int64 range bounds made explicit where a claim quantifies over them.
  No arithmetic is performed on it, so no overflow can occur.
-/

/-- Opaque machine pointers, modelled as addresses. -/
abbrev Ptr : Type := Nat

/-- The C null pointer. -/
def nullPtr : Ptr := 0

/-- Memory: contents stored at each address. -/
abbrev Heap : Type := Nat → Int

/-- Update the heap at one address (a handler-side store such as `*error = v`). -/
def writeMem (h : Heap) (a : Ptr) (v : Int) : Heap :=
  fun x => if x = a then v else h x

/-- One invocation of an externally defined handler, recording which handler
was called and every argument passed to it, in positional order. -/
inductive HandlerCall where
  | create (class_userdata : Ptr)
  | free (class_userdata : Ptr) (inst : Ptr)
  | method (method_userdata : Ptr) (inst : Ptr) (args : Ptr) (arg_count : Int)
      (ret : Ptr) (error : Ptr)
deriving DecidableEq, Repr

/-- The externally defined handlers the C file links against
(`go_create_instance`, `go_free_instance`, `go_method_call`).  They are
outside the fragment, so they are arbitrary functions: each may read and
write the heap; `go_create_instance` also returns an instance pointer. -/
structure Handlers where
  go_create_instance : Ptr → Heap → Ptr × Heap
  go_free_instance : Ptr → Ptr → Heap → Heap
  go_method_call : Ptr → Ptr → Ptr → Int → Ptr → Ptr → Heap → Heap

/-- Result of a trampoline that returns a pointer: the returned pointer, the
heap after the call, and the handler invocations performed. -/
structure CreateResult where
  retVal : Ptr
  heap : Heap
  calls : List HandlerCall

/-- Result of a void trampoline: the heap after the call and the handler
invocations performed. -/
structure VoidResult where
  heap : Heap
  calls : List HandlerCall

/-- `c_create_instance_wrapper`: returns `go_create_instance(class_userdata)`.
The body is a single call to the handler with the received pointer; the
returned pointer and the heap are whatever the handler produced. -/
def c_create_instance_wrapper (H : Handlers) (class_userdata : Ptr) (h : Heap) :
    CreateResult :=
  let r := H.go_create_instance class_userdata h
  { retVal := r.1, heap := r.2, calls := [HandlerCall.create class_userdata] }

/-- `c_free_instance_wrapper`: calls `go_free_instance(class_userdata, instance)`
and returns nothing. -/
def c_free_instance_wrapper (H : Handlers) (class_userdata : Ptr) (inst : Ptr)
    (h : Heap) : VoidResult :=
  { heap := H.go_free_instance class_userdata inst h,
    calls := [HandlerCall.free class_userdata inst] }

/-- `c_method_call_wrapper`: calls
`go_method_call(method_userdata, instance, args, arg_count, ret, error)`
and returns nothing. -/
def c_method_call_wrapper (H : Handlers) (method_userdata : Ptr) (inst : Ptr)
    (args : Ptr) (arg_count : Int) (ret : Ptr) (error : Ptr) (h : Heap) :
    VoidResult :=
  { heap := H.go_method_call method_userdata inst args arg_count ret error h,
    calls := [HandlerCall.method method_userdata inst args arg_count ret error] }

/-- Smallest value of C `int64_t`. -/
def int64Min : Int := -(2 ^ 63)

/-- Largest value of C `int64_t`. -/
def int64Max : Int := 2 ^ 63 - 1

/-- A concrete handler assembly used for concrete scenarios: instance creation
returns the null sentinel, freeing does nothing, and the method handler
ignores the argument array and writes error code 0 into the error location. -/
def zeroErrorHandler : Handlers where
  go_create_instance := fun _ h => (nullPtr, h)
  go_free_instance := fun _ _ h => h
  go_method_call := fun _ _ _ _ _ error h => writeMem h error 0

/-- Claim C1: each of the three trampolines invokes exactly one externally
defined handler (`go_create_instance`, `go_free_instance`, `go_method_call`
respectively), passing every received parameter with identical value and in
the same positional order; the trampoline's result and post-call heap are
exactly the handler's, with no copying, transformation, or reinterpretation. -/
theorem trampolines_forward_exactly_once (H : Handlers)
    (class_userdata inst method_userdata args ret error : Ptr)
    (arg_count : Int) (h : Heap) :
    (c_create_instance_wrapper H class_userdata h).calls =
      [HandlerCall.create class_userdata] ∧
    (c_create_instance_wrapper H class_userdata h).retVal =
      (H.go_create_instance class_userdata h).1 ∧
    (c_create_instance_wrapper H class_userdata h).heap =
      (H.go_create_instance class_userdata h).2 ∧
    (c_free_instance_wrapper H class_userdata inst h).calls =
      [HandlerCall.free class_userdata inst] ∧
    (c_free_instance_wrapper H class_userdata inst h).heap =
      H.go_free_instance class_userdata inst h ∧
    (c_method_call_wrapper H method_userdata inst args arg_count ret error h).calls =
      [HandlerCall.method method_userdata inst args arg_count ret error] ∧
    (c_method_call_wrapper H method_userdata inst args arg_count ret error h).heap =
      H.go_method_call method_userdata inst args arg_count ret error h :=
  ⟨rfl, rfl, rfl, rfl, rfl, rfl, rfl⟩

/-- Claim C2: for every class user-data pointer (and every handler, hence in
particular one returning the null sentinel), the pointer returned by
`c_create_instance_wrapper` is exactly the pointer returned by
`go_create_instance` on that same pointer; no validation of the input or of
the handler's result is performed, as witnessed by the unconditional
quantification over the input pointer and the handler. -/
theorem create_wrapper_returns_handler_result (H : Handlers)
    (class_userdata : Ptr) (h : Heap) :
    (c_create_instance_wrapper H class_userdata h).retVal =
      (H.go_create_instance class_userdata h).1 ∧
    (c_create_instance_wrapper H class_userdata h).calls =
      [HandlerCall.create class_userdata] :=
  ⟨rfl, rfl⟩

/-- Claim C3: `c_method_call_wrapper` passes the argument-array pointer and
the `arg_count` scalar to `go_method_call` unchanged, and the heap after the
trampoline returns is exactly the heap the handler produced — in particular
the contents at the `ret` and `error` locations are whatever the handler
wrote there, with no intermediate buffering and no writes by the trampoline
itself. -/
theorem method_wrapper_passthrough (H : Handlers)
    (method_userdata inst args ret error : Ptr) (arg_count : Int) (h : Heap) :
    (c_method_call_wrapper H method_userdata inst args arg_count ret error h).calls =
      [HandlerCall.method method_userdata inst args arg_count ret error] ∧
    (c_method_call_wrapper H method_userdata inst args arg_count ret error h).heap =
      H.go_method_call method_userdata inst args arg_count ret error h ∧
    (c_method_call_wrapper H method_userdata inst args arg_count ret error h).heap ret =
      H.go_method_call method_userdata inst args arg_count ret error h ret ∧
    (c_method_call_wrapper H method_userdata inst args arg_count ret error h).heap error =
      H.go_method_call method_userdata inst args arg_count ret error h error :=
  ⟨rfl, rfl, rfl, rfl⟩

/-- Claim C4: `c_free_instance_wrapper` produces no return value (its result
carries only the post-call heap and the call record) and invokes
`go_free_instance` exactly once per call with both pointers unchanged; the
post-call heap is exactly the handler's. -/
theorem free_wrapper_forwards_both_pointers (H : Handlers)
    (class_userdata inst : Ptr) (h : Heap) :
    (c_free_instance_wrapper H class_userdata inst h).calls =
      [HandlerCall.free class_userdata inst] ∧
    (c_free_instance_wrapper H class_userdata inst h).heap =
      H.go_free_instance class_userdata inst h :=
  ⟨rfl, rfl⟩

/-- Claim C5: the bridge is stateless and a pure pass-through: each
trampoline's post-call heap is exactly the handler's output heap (so the
bridge allocates, frees and mutates nothing), the sequence of handler calls
each trampoline performs is the same for any two heaps (so the bridge
inspects no memory), and the create trampoline's return value is exactly the
handler's; each trampoline is a function of its parameters and the current
heap only, so no state is retained between invocations. -/
theorem bridge_stateless_pure_passthrough (H : Handlers)
    (class_userdata inst method_userdata args ret error : Ptr)
    (arg_count : Int) (h h' : Heap) :
    (c_create_instance_wrapper H class_userdata h).heap =
      (H.go_create_instance class_userdata h).2 ∧
    (c_create_instance_wrapper H class_userdata h).retVal =
      (H.go_create_instance class_userdata h).1 ∧
    (c_create_instance_wrapper H class_userdata h).calls =
      (c_create_instance_wrapper H class_userdata h').calls ∧
    (c_free_instance_wrapper H class_userdata inst h).heap =
      H.go_free_instance class_userdata inst h ∧
    (c_free_instance_wrapper H class_userdata inst h).calls =
      (c_free_instance_wrapper H class_userdata inst h').calls ∧
    (c_method_call_wrapper H method_userdata inst args arg_count ret error h).heap =
      H.go_method_call method_userdata inst args arg_count ret error h ∧
    (c_method_call_wrapper H method_userdata inst args arg_count ret error h).calls =
      (c_method_call_wrapper H method_userdata inst args arg_count ret error h').calls :=
  ⟨rfl, rfl, rfl, rfl, rfl, rfl, rfl⟩

/-- Claim C6: invoking `c_method_call_wrapper` with `arg_count = 0`, a null
argument-array pointer, and a handler that writes error code 0 into the
error location results in the caller observing error code 0 at the error
location; the trampoline never dereferences the argument array, so the null
array reaches the handler intact (the recorded call carries `nullPtr`) and
the call completes normally (the embedding is a total function). -/
theorem method_wrapper_null_args_zero_error
    (method_userdata inst ret error : Ptr) (h : Heap) :
    (c_method_call_wrapper zeroErrorHandler method_userdata inst nullPtr 0 ret
        error h).heap error = 0 ∧
    (c_method_call_wrapper zeroErrorHandler method_userdata inst nullPtr 0 ret
        error h).calls =
      [HandlerCall.method method_userdata inst nullPtr 0 ret error] := by
  refine ⟨?_, rfl⟩
  simp [c_method_call_wrapper, zeroErrorHandler, writeMem]

/-- Claim C7: the bridge defines no error kinds and neither raises, catches,
nor inspects errors: the error-code output pointer received by
`c_method_call_wrapper` is the very pointer delivered to `go_method_call`
(recorded unchanged in the single handler call), the post-call heap is the
handler's output heap (the pointer's contents pass through uncorrupted), and
the trampoline's call behaviour is unchanged when the value stored at the
error location is overwritten arbitrarily beforehand — it never reads or
branches on any error value. -/
theorem method_wrapper_error_pointer_uncorrupted (H : Handlers)
    (method_userdata inst args ret error : Ptr) (arg_count : Int)
    (h : Heap) (v : Int) :
    (c_method_call_wrapper H method_userdata inst args arg_count ret error h).calls =
      [HandlerCall.method method_userdata inst args arg_count ret error] ∧
    (c_method_call_wrapper H method_userdata inst args arg_count ret error h).heap =
      H.go_method_call method_userdata inst args arg_count ret error h ∧
    (c_method_call_wrapper H method_userdata inst args arg_count ret error
        (writeMem h error v)).calls =
      (c_method_call_wrapper H method_userdata inst args arg_count ret error h).calls :=
  ⟨rfl, rfl, rfl⟩

/-- Claim C8: `c_method_call_wrapper` imposes no bound or sign check on
`arg_count`: every value in the int64 range, including negative values and
values inconsistent with the actual argument-array length, is forwarded to
`go_method_call` unchanged, neither rejected nor clamped. -/
theorem method_wrapper_forwards_any_int64_count (H : Handlers)
    (method_userdata inst args ret error : Ptr) (h : Heap) (arg_count : Int)
    (hlo : int64Min ≤ arg_count) (hhi : arg_count ≤ int64Max) :
    (c_method_call_wrapper H method_userdata inst args arg_count ret error h).calls =
      [HandlerCall.method method_userdata inst args arg_count ret error] ∧
    (c_method_call_wrapper H method_userdata inst args arg_count ret error h).heap =
      H.go_method_call method_userdata inst args arg_count ret error h :=
  ⟨rfl, rfl⟩

/-- Witness for claim C8 at the concrete negative count `-7`. -/
theorem method_wrapper_forwards_any_int64_count_witness :
    int64Min ≤ (-7 : Int) ∧ (-7 : Int) ≤ int64Max ∧
    (c_method_call_wrapper zeroErrorHandler 1 2 3 (-7) 4 5 (fun _ => 0)).calls =
      [HandlerCall.method 1 2 3 (-7) 4 5] :=
  ⟨by decide, by decide,
    (method_wrapper_forwards_any_int64_count zeroErrorHandler 1 2 3 4 5
      (fun _ => 0) (-7) (by decide) (by decide)).1⟩

/-- Claim C9: every trampoline accepts null for any of its pointer
parameters without the bridge dereferencing or faulting on them: with all
pointer parameters null, each trampoline still performs exactly its single
handler call with the null pointers passed through unchanged, and its result
and post-call heap are exactly the handler's — so totality on null inputs
depends only on the handler. -/
theorem trampolines_accept_null_pointers (H : Handlers) (arg_count : Int)
    (h : Heap) :
    (c_create_instance_wrapper H nullPtr h).calls = [HandlerCall.create nullPtr] ∧
    (c_create_instance_wrapper H nullPtr h).retVal =
      (H.go_create_instance nullPtr h).1 ∧
    (c_free_instance_wrapper H nullPtr nullPtr h).calls =
      [HandlerCall.free nullPtr nullPtr] ∧
    (c_free_instance_wrapper H nullPtr nullPtr h).heap =
      H.go_free_instance nullPtr nullPtr h ∧
    (c_method_call_wrapper H nullPtr nullPtr nullPtr arg_count nullPtr nullPtr
        h).calls =
      [HandlerCall.method nullPtr nullPtr nullPtr arg_count nullPtr nullPtr] ∧
    (c_method_call_wrapper H nullPtr nullPtr nullPtr arg_count nullPtr nullPtr
        h).heap =
      H.go_method_call nullPtr nullPtr nullPtr arg_count nullPtr nullPtr h :=
  ⟨rfl, rfl, rfl, rfl, rfl, rfl⟩

/-- Claim C10: each trampoline is deterministic as a two-run property: two
invocations with identical parameter values, against handlers that behave
identically, produce identical results (return value, post-call heap, and
the identical single handler-call sequence), since the bridge consults no
state other than its parameters. -/
theorem trampolines_deterministic_two_run (H₁ H₂ : Handlers)
    (class_userdata inst method_userdata args ret error : Ptr)
    (arg_count : Int) (h : Heap)
    (hc : H₁.go_create_instance = H₂.go_create_instance)
    (hf : H₁.go_free_instance = H₂.go_free_instance)
    (hm : H₁.go_method_call = H₂.go_method_call) :
    c_create_instance_wrapper H₁ class_userdata h =
      c_create_instance_wrapper H₂ class_userdata h ∧
    c_free_instance_wrapper H₁ class_userdata inst h =
      c_free_instance_wrapper H₂ class_userdata inst h ∧
    c_method_call_wrapper H₁ method_userdata inst args arg_count ret error h =
      c_method_call_wrapper H₂ method_userdata inst args arg_count ret error h := by
  refine ⟨?_, ?_, ?_⟩ <;>
    simp [c_create_instance_wrapper, c_free_instance_wrapper,
      c_method_call_wrapper, hc, hf, hm]

/-- Witness for claim C10 with a concrete handler and concrete parameters. -/
theorem trampolines_deterministic_two_run_witness :
    c_create_instance_wrapper zeroErrorHandler 1 (fun _ => 0) =
      c_create_instance_wrapper zeroErrorHandler 1 (fun _ => 0) ∧
    c_free_instance_wrapper zeroErrorHandler 1 2 (fun _ => 0) =
      c_free_instance_wrapper zeroErrorHandler 1 2 (fun _ => 0) ∧
    c_method_call_wrapper zeroErrorHandler 1 2 3 4 5 6 (fun _ => 0) =
      c_method_call_wrapper zeroErrorHandler 1 2 3 4 5 6 (fun _ => 0) :=
  trampolines_deterministic_two_run zeroErrorHandler zeroErrorHandler
    1 2 1 3 5 6 4 (fun _ => 0) rfl rfl rfl
